import Mathlib

/-!
Shallow embedding of the cart-screen order-total computation of the
youlite storefront app (Cart component: coupon discount, shipping cost,
tax calculation, GST breakdown, payment-method selection, derived totals,
and the cart mutation operations).

Modelling conventions:
* JavaScript numbers are modelled as rationals (`ℚ`).
* A JavaScript value that the code feeds through `parseFloat` is modelled
  by its parse result `Option ℚ`: `some x` when `parseFloat` yields the
  finite number `x`, `none` when it yields `NaN`/`±Infinity` (i.e. when
  `Number.isFinite` is false).
* `Number(x.toFixed(2))` on a finite value is modelled by `round2`
  (round to 2 decimal places, half away handled as half up, which agrees
  with `toFixed` away from exact ties).
* The shipping-cost formula string is modelled by `CostSettings`: the two
  substring tests `includes('[qty]')` / `includes('[cost]')` become the
  flags `hasQty` / `hasCost`, the `eval` of the formula after substituting
  the quantity (resp. cost) becomes the oracle `evalQty` (resp. `evalCost`)
  returning `none` when `eval` throws, and `parseFloat` of the raw value
  becomes `literal`.
* Remote fetches are modelled by their outcome `Except String data`;
  the `catch` branches of the loaders return `[]`.
-/

namespace YouliteCart

/-- Cart line item (interface `CartItem`). `price`/`originalPrice` are the
unit sale/regular prices; `payment_methods` is the optional list of
supported payment-method ids. -/
structure CartItem where
  id : String
  name : String
  price : ℚ
  originalPrice : ℚ
  quantity : ℚ
  tax_class : Option String
  tax_status : Option String
  payment_methods : Option (List String)
deriving DecidableEq

/-- Applied coupon metadata (interface `AppliedCouponMeta`); `amount` is
the `parseFloat` of the stored amount string. -/
structure AppliedCouponMeta where
  code : String
  amount : ℚ
  discount_type : String
deriving DecidableEq

/-- The cost setting of a shipping method (`settings.cost.value`),
modelled as described in the file header. -/
structure CostSettings where
  hasQty : Bool
  hasCost : Bool
  evalQty : ℚ → Option ℚ
  evalCost : ℚ → Option ℚ
  literal : Option ℚ

/-- Shipping method (interface `ShippingMethod`), restricted to the
fields the computation reads. `title_value` and `tax_status_value` stand
for `settings.title.value` and `settings.tax_status.value`. -/
structure ShippingMethod where
  id : ℕ
  instance_id : ℕ
  title : String
  enabled : Bool
  method_id : String
  title_value : String
  tax_status_value : String
  cost : CostSettings

/-- Shipping line (interface `ShippingLine`); `total` and `total_tax` are
numeric strings in the source, modelled by their parse results. -/
structure ShippingLine where
  id : ℕ
  method_title : String
  method_id : String
  instance_id : String
  total : Option ℚ
  total_tax : Option ℚ
  tax_status : String

/-- Tax rate record (interface `TaxRate`), restricted to the fields the
computation reads; `rate` is the `parseFloat` result of the rate string,
`«class»` the tax class (empty string = standard). -/
structure TaxRate where
  id : ℕ
  rate : Option ℚ
  name : String
  compound : Bool
  shipping : Bool
  «class» : String
deriving DecidableEq

/-- One element of `TaxCalculation.tax_lines`. -/
structure TaxLine where
  id : ℕ
  rate_code : String
  rate_id : ℕ
  label : String
  compound : Bool
  tax_total : ℚ
  shipping_tax_total : ℚ
  rate_percent : ℚ
  tax_class : String
deriving DecidableEq

/-- Result of the tax calculator (interface `TaxCalculation`). -/
structure TaxCalculation where
  tax_total : ℚ
  shipping_tax_total : ℚ
  tax_lines : List TaxLine
deriving DecidableEq

/-- Payment gateway (interface `PaymentGateway`), restricted to the
fields the selector reads. -/
structure PaymentGateway where
  id : String
  title : String
  enabled : Bool
deriving DecidableEq

/-- The selector's result record `{ method, gateway, description }`. -/
structure SelectedPayment where
  method : String
  gateway : PaymentGateway
  description : String
deriving DecidableEq

/-- `Number(x.toFixed(2))` on a finite rational. -/
def round2 (x : ℚ) : ℚ := (⌊x * 100 + 1 / 2⌋ : ℤ) / 100

/-- Helper `toNum`: the parsed float when finite, the fallback otherwise.
(The source's `parseFloat(String(v ?? ''))` plus `Number.isFinite` check
is the `Option ℚ` of the modelling convention.) -/
def toNum (v : Option ℚ) (fb : ℚ) : ℚ :=
  match v with
  | some n => n
  | none => fb

/-- `calcCouponDiscount`: reduce over the applied coupons, adding
`subtotal * amount / 100` for `percent` coupons, `amount` for
`fixed_cart` coupons, and nothing for any other discount type. -/
def calcCouponDiscount (subtotal : ℚ) (coupons : List AppliedCouponMeta) : ℚ :=
  coupons.foldl (fun sum c =>
    if c.discount_type = "percent" then sum + subtotal * c.amount / 100
    else if c.discount_type = "fixed_cart" then sum + c.amount
    else sum) 0

/-- `calculateShippingCost`: if the cost formula contains `[qty]`,
substitute the cart's total quantity and evaluate (falling back to the
literal parse of the raw value on evaluation failure); else if it
contains `[cost]`, substitute the cart's price×quantity sum and evaluate
(same fallback); else parse the raw value as a literal (0 if unparseable). -/
def calculateShippingCost (shippingMethod : ShippingMethod) (cartItems : List CartItem) : ℚ :=
  let costFormula := shippingMethod.cost
  if costFormula.hasQty then
    let totalQuantity := (cartItems.map (fun item => item.quantity)).sum
    match costFormula.evalQty totalQuantity with
    | some v => v
    | none => toNum costFormula.literal 0
  else if costFormula.hasCost then
    let totalCost := (cartItems.map (fun item => item.price * item.quantity)).sum
    match costFormula.evalCost totalCost with
    | some v => v
    | none => toNum costFormula.literal 0
  else
    toNum costFormula.literal 0

/-- The tax class under which an item is grouped:
`item.tax_class || 'standard'` (empty string and absence are both falsy,
hence both default to `"standard"`). -/
def taxClassOf (item : CartItem) : String :=
  match item.tax_class with
  | none => "standard"
  | some c => if c = "" then "standard" else c

/-- Keys of a JavaScript object built by insertion, i.e. the list of
values with later duplicates removed (first-occurrence order), with the
set of already-seen keys as accumulator. -/
def firstDedupAux (seen : List String) : List String → List String
  | [] => []
  | a :: l => if a ∈ seen then firstDedupAux seen l else a :: firstDedupAux (a :: seen) l

/-- First-occurrence deduplication (iteration order of `Object.entries`
over the `itemsByTaxClass` grouping object). -/
def firstDedup (l : List String) : List String := firstDedupAux [] l

/-- The distinct tax classes of a cart, in grouping order. -/
def classesOf (cartItems : List CartItem) : List String :=
  firstDedup (cartItems.map taxClassOf)

/-- The grouping object's per-class subtotal: sum of `price * quantity`
over the items grouped under class `c`. -/
def classSubtotal (cartItems : List CartItem) (c : String) : ℚ :=
  ((cartItems.filter (fun item => taxClassOf item = c)).map
    (fun item => item.price * item.quantity)).sum

/-- The rates applicable to a tax class:
`rate.class === taxClass || (taxClass === 'standard' && rate.class === '')`. -/
def applicableRates (taxRates : List TaxRate) (taxClass : String) : List TaxRate :=
  taxRates.filter (fun rate =>
    rate.«class» = taxClass ∨ (taxClass = "standard" ∧ rate.«class» = ""))

/-- The tax line pushed for one (class, rate) pair. -/
def taxLineFor (cartItems : List CartItem) (shippingTotal : ℚ)
    (taxClass : String) (rate : TaxRate) : TaxLine :=
  let ratePercent := toNum rate.rate 0
  let item_tax := classSubtotal cartItems taxClass * ratePercent / 100
  let shipping_tax := if rate.shipping then shippingTotal * ratePercent / 100 else 0
  { id := rate.id
    rate_code := "TAX-" ++ toString rate.id
    rate_id := rate.id
    label := rate.name
    compound := rate.compound
    tax_total := item_tax
    shipping_tax_total := shipping_tax
    rate_percent := ratePercent
    tax_class := taxClass }

/-- `calculateTaxes`: group the items by tax class, and for each class in
grouping order and each applicable rate push one tax line; `tax_total`
and `shipping_tax_total` are the running sums of the pushed lines' item
tax and shipping tax. (The `subtotal` parameter is accepted but, as in
the source, not read: per-class subtotals come from the items.) -/
def calculateTaxes (cartItems : List CartItem) (subtotal : ℚ)
    (shippingTotal : ℚ) (taxRates : List TaxRate) : TaxCalculation :=
  let tax_lines := (classesOf cartItems).flatMap (fun taxClass =>
    (applicableRates taxRates taxClass).map (taxLineFor cartItems shippingTotal taxClass))
  { tax_total := (tax_lines.map TaxLine.tax_total).sum
    shipping_tax_total := (tax_lines.map TaxLine.shipping_tax_total).sum
    tax_lines := tax_lines }

/-- The GST breakdown record returned by `calculateGSTBreakdown`. -/
structure GSTBreakdown where
  cgst : ℚ
  sgst : ℚ
  igst : ℚ
  total : ℚ
deriving DecidableEq

/-- `calculateGSTBreakdown`: for each tax line add half of its item tax
and half of its shipping tax to both the CGST and the SGST accumulator
(`igst` is never touched); return the accumulators rounded to 2 decimals
and `Number((cgst + sgst + igst).toFixed(2))` computed from the
*unrounded* accumulators. -/
def calculateGSTBreakdown (taxCalculation : Option TaxCalculation) : GSTBreakdown :=
  match taxCalculation with
  | none => { cgst := 0, sgst := 0, igst := 0, total := 0 }
  | some t =>
    let cgst := (t.tax_lines.map
      (fun taxLine => taxLine.tax_total / 2 + taxLine.shipping_tax_total / 2)).sum
    let sgst := (t.tax_lines.map
      (fun taxLine => taxLine.tax_total / 2 + taxLine.shipping_tax_total / 2)).sum
    let igst : ℚ := 0
    { cgst := round2 cgst
      sgst := round2 sgst
      igst := round2 igst
      total := round2 (cgst + sgst + igst) }

/-- The per-item test of the payment selector:
`item.payment_methods?.includes('cod') || !item.payment_methods ||
item.payment_methods.length === 0`. -/
def itemSupportsCOD (item : CartItem) : Bool :=
  match item.payment_methods with
  | none => true
  | some ms => ms.contains "cod" || ms.isEmpty

/-- `cartItems.every(...)` of the payment selector. -/
def allProductsSupportCOD (cartItems : List CartItem) : Bool :=
  cartItems.all itemSupportsCOD

/-- `determinePaymentMethod`: among the enabled gateways find the first
with id `cod` and the first with id `razorpay`; if every item supports
COD and a COD gateway was found select it, else select razorpay if
found, else fall back to the COD gateway if found, else select nothing. -/
def determinePaymentMethod (cartItems : List CartItem)
    (paymentGateways : List PaymentGateway) : Option SelectedPayment :=
  let enabledGateways := paymentGateways.filter (fun gateway => gateway.enabled)
  let codGateway := enabledGateways.find? (fun gateway => gateway.id == "cod")
  let razorpayGateway := enabledGateways.find? (fun gateway => gateway.id == "razorpay")
  if allProductsSupportCOD cartItems && codGateway.isSome then
    codGateway.map (fun g =>
      { method := "cod", gateway := g
        description := "Cash on delivery - Pay with cash upon delivery." })
  else if razorpayGateway.isSome then
    razorpayGateway.map (fun g =>
      { method := "razorpay", gateway := g
        description := "Credit Card/Debit Card/NetBanking - Secure online payment" })
  else
    codGateway.map (fun g =>
      { method := "cod", gateway := g
        description := "Cash on delivery - Pay with cash upon delivery." })

/-- `calculateShippingLines`: nothing without methods or items; otherwise
one line per enabled method, its `total` the method's computed shipping
cost rendered with `toFixed(2)` (here: `round2`, re-parsed as `some _`). -/
def calculateShippingLines (methods : List ShippingMethod)
    (items : List CartItem) : List ShippingLine :=
  if methods.isEmpty || items.isEmpty then []
  else
    (methods.filter (fun method => method.enabled)).map (fun method =>
      let shippingCost := calculateShippingCost method items
      { id := method.id
        method_title := method.title_value
        method_id := method.method_id
        instance_id := toString method.instance_id
        total := some (round2 shippingCost)
        total_tax := some 0
        tax_status := method.tax_status_value })

/-- The derived `subtotal`: `cartItems.reduce((s, it) => s + it.price * it.quantity, 0)`. -/
def subtotal (cartItems : List CartItem) : ℚ :=
  (cartItems.map (fun it => it.price * it.quantity)).sum

/-- The derived `shippingTotal`:
`shippingLines.reduce((total, line) => total + toNum(line.total), 0)`. -/
def shippingTotalOf (shippingLines : List ShippingLine) : ℚ :=
  (shippingLines.map (fun line => toNum line.total 0)).sum

/-- The derived `itemTaxTotal`: `taxCalculation?.tax_total || 0`. -/
def itemTaxTotal (taxCalculation : Option TaxCalculation) : ℚ :=
  match taxCalculation with
  | some t => t.tax_total
  | none => 0

/-- The derived `shippingTaxTotal`: `taxCalculation?.shipping_tax_total || 0`. -/
def shippingTaxTotal (taxCalculation : Option TaxCalculation) : ℚ :=
  match taxCalculation with
  | some t => t.shipping_tax_total
  | none => 0

/-- The derived `totalTax = itemTaxTotal + shippingTaxTotal`. -/
def totalTax (taxCalculation : Option TaxCalculation) : ℚ :=
  itemTaxTotal taxCalculation + shippingTaxTotal taxCalculation

/-- The derived grand total
`total = subtotal - couponDiscount + shippingTotal + totalTax`. -/
def total (cartItems : List CartItem) (appliedCoupons : List AppliedCouponMeta)
    (shippingLines : List ShippingLine) (taxCalculation : Option TaxCalculation) : ℚ :=
  subtotal cartItems - calcCouponDiscount (subtotal cartItems) appliedCoupons
    + shippingTotalOf shippingLines + totalTax taxCalculation

/-- The pure core of `updateTaxCalculation`: recompute subtotal and
shipping total from the full snapshot, run the tax calculator when the
rate list is non-empty, otherwise set the calculation to `null`. -/
def updateTaxCalculation (items : List CartItem) (shipping : List ShippingLine)
    (rates : List TaxRate) : Option TaxCalculation :=
  let sub := subtotal items
  let shippingTotal := shippingTotalOf shipping
  if rates.length > 0 then some (calculateTaxes items sub shippingTotal rates)
  else none

/-- `loadTaxRates`, keyed by the fetch outcome: the rates on success, the
empty list when the fetch failed (the `catch` branch). -/
def loadTaxRates (response : Except String (List TaxRate)) : List TaxRate :=
  match response with
  | Except.ok rates => rates
  | Except.error _ => []

/-- `loadShippingMethods`: the enabled methods on success, the empty list
when the fetch failed. -/
def loadShippingMethods (response : Except String (List ShippingMethod)) :
    List ShippingMethod :=
  match response with
  | Except.ok methods => methods.filter (fun method => method.enabled)
  | Except.error _ => []

/-- `loadPaymentGateways`: the gateways on success, the empty list when
the fetch failed. -/
def loadPaymentGateways (response : Except String (List PaymentGateway)) :
    List PaymentGateway :=
  match response with
  | Except.ok gateways => gateways
  | Except.error _ => []

/-- `updateQuantity` (pure core): requests below 1 are ignored; otherwise
the matching item's quantity is replaced. -/
def updateQuantity (cartItems : List CartItem) (id : String) (qty : ℚ) : List CartItem :=
  if qty < 1 then cartItems
  else cartItems.map (fun it => if it.id = id then { it with quantity := qty } else it)

/-- `removeItem` (pure core): drop the items with the given id. -/
def removeItem (cartItems : List CartItem) (id : String) : List CartItem :=
  cartItems.filter (fun it => !(it.id == id))

/-- The shipping lines of the (at most one) selected shipping method, as
in `loadCart` / `updateCartMeta`:
`defaultMethod ? calculateShippingLines([defaultMethod], items) : []`. -/
def shippingLinesFor (selected : Option ShippingMethod) (items : List CartItem) :
    List ShippingLine :=
  match selected with
  | some m => calculateShippingLines [m] items
  | none => []

/-- The value the spec assigns to a single applied coupon: percentage of
the subtotal for `percent`, the plain amount for `fixed_cart`, nothing
for any other discount type. (Spec-side definition, for comparison with
`calcCouponDiscount`.) -/
def couponValueSpec (subtotal : ℚ) (c : AppliedCouponMeta) : ℚ :=
  if c.discount_type = "percent" then subtotal * c.amount / 100
  else if c.discount_type = "fixed_cart" then c.amount
  else 0

/-- The spec's wording of per-item COD support: the item declares no
payment-method restriction (absent or empty list) or lists `cod`.
(Spec-side definition, for comparison with `itemSupportsCOD`.) -/
def supportsCODSpec (it : CartItem) : Prop :=
  it.payment_methods = none
    ∨ ∃ ms, it.payment_methods = some ms ∧ ("cod" ∈ ms ∨ ms = [])

/-- Sample standard-class item with unit price 1000 and quantity 1. -/
def exItem : CartItem :=
  { id := "1", name := "sample", price := 1000, originalPrice := 1000, quantity := 1,
    tax_class := none, tax_status := some "taxable", payment_methods := none }

/-- Sample 18% standard tax rate that applies to shipping. -/
def exRate : TaxRate :=
  { id := 1, rate := some 18, name := "GST", compound := false, shipping := true,
    «class» := "" }

/-- Item whose line value is 0.6, so that a 1% rate yields a per-line tax
of 0.006. -/
def centItem : CartItem :=
  { id := "2", name := "cheap", price := 3 / 5, originalPrice := 3 / 5, quantity := 1,
    tax_class := none, tax_status := some "taxable", payment_methods := none }

/-- 1% standard tax rate not applying to shipping. -/
def centRate : TaxRate :=
  { id := 2, rate := some 1, name := "GST", compound := false, shipping := false,
    «class» := "" }

/-- A second sample item, with a COD-only payment restriction. -/
def exItem2 : CartItem :=
  { id := "3", name := "other", price := 50, originalPrice := 60, quantity := 2,
    tax_class := some "reduced", tax_status := some "taxable",
    payment_methods := some ["cod"] }

/-- Shipping method whose cost value is the literal `-5` (no `[qty]` or
`[cost]` token). -/
def negCostMethod : ShippingMethod :=
  { id := 1, instance_id := 1, title := "Flat", enabled := true, method_id := "flat_rate",
    title_value := "Flat", tax_status_value := "taxable",
    cost := { hasQty := false, hasCost := false, evalQty := fun _ => none,
              evalCost := fun _ => none, literal := some (-5) } }

/-- Shipping method whose cost formula contains `[qty]` and always
evaluates to 5, with literal fallback 2. -/
def qtyCostMethod : ShippingMethod :=
  { id := 2, instance_id := 2, title := "PerQty", enabled := true, method_id := "flat_rate",
    title_value := "PerQty", tax_status_value := "taxable",
    cost := { hasQty := true, hasCost := false, evalQty := fun _ => some 5,
              evalCost := fun _ => none, literal := some 2 } }

/-- Enabled cash-on-delivery gateway. -/
def codGw : PaymentGateway := { id := "cod", title := "Cash on delivery", enabled := true }

/-- Tax rate whose rate string does not parse to a finite number. -/
def nanRate : TaxRate :=
  { id := 3, rate := none, name := "Bad", compound := false, shipping := true,
    «class» := "" }

end YouliteCart

namespace YouliteCart

/-! ### Helper lemmas -/

/-- Summing a projection over a flatMap is the sum of the inner sums. -/
lemma sum_map_flatMap {α β : Type} (f : α → List β) (g : β → ℚ) (l : List α) :
    ((l.flatMap f).map g).sum = (l.map (fun a => ((f a).map g).sum)).sum := by
  induction l with
  | nil => simp
  | cons a t ih => simp [List.flatMap_cons, ih]

lemma calcCouponDiscount_foldl (s a : ℚ) (cs : List AppliedCouponMeta) :
    cs.foldl (fun sum c =>
      if c.discount_type = "percent" then sum + s * c.amount / 100
      else if c.discount_type = "fixed_cart" then sum + c.amount
      else sum) a = a + (cs.map (couponValueSpec s)).sum := by
  induction cs generalizing a with
  | nil => simp
  | cons c t ih =>
    simp only [List.foldl_cons, List.map_cons, List.sum_cons, ih, couponValueSpec]
    split_ifs <;> ring

lemma mem_firstDedupAux (seen : List String) (l : List String) (b : String) :
    b ∈ firstDedupAux seen l ↔ b ∈ l ∧ b ∉ seen := by
  induction l generalizing seen with
  | nil => simp [firstDedupAux]
  | cons a t ih =>
    by_cases ha : a ∈ seen
    · simp only [firstDedupAux, if_pos ha, ih, List.mem_cons]
      constructor
      · rintro ⟨hb, hs⟩; exact ⟨Or.inr hb, hs⟩
      · rintro ⟨hb | hb, hs⟩
        · subst hb; exact absurd ha hs
        · exact ⟨hb, hs⟩
    · simp only [firstDedupAux, if_neg ha, List.mem_cons, ih]
      constructor
      · rintro (rfl | ⟨hb, hs⟩)
        · exact ⟨Or.inl rfl, ha⟩
        · exact ⟨Or.inr hb, fun h2 => hs (Or.inr h2)⟩
      · rintro ⟨rfl | hb, hs⟩
        · exact Or.inl rfl
        · by_cases hba : b = a
          · exact Or.inl hba
          · exact Or.inr ⟨hb, fun h => h.elim hba hs⟩

lemma nodup_firstDedupAux (seen : List String) (l : List String) :
    (firstDedupAux seen l).Nodup := by
  induction l generalizing seen with
  | nil => simp [firstDedupAux]
  | cons a t ih =>
    by_cases ha : a ∈ seen
    · simpa [firstDedupAux, if_pos ha] using ih seen
    · simp only [firstDedupAux, if_neg ha, List.nodup_cons]
      refine ⟨?_, ih (a :: seen)⟩
      intro hmem
      exact ((mem_firstDedupAux _ _ _).mp hmem).2 (List.mem_cons_self a seen)

lemma mem_firstDedup (l : List String) (b : String) :
    b ∈ firstDedup l ↔ b ∈ l := by
  simp [firstDedup, mem_firstDedupAux]

lemma nodup_firstDedup (l : List String) : (firstDedup l).Nodup :=
  nodup_firstDedupAux [] l

lemma firstDedup_perm {l₁ l₂ : List String} (h : l₁.Perm l₂) :
    (firstDedup l₁).Perm (firstDedup l₂) := by
  rw [List.perm_ext_iff_of_nodup (nodup_firstDedup l₁) (nodup_firstDedup l₂)]
  intro a
  rw [mem_firstDedup, mem_firstDedup]
  exact ⟨fun ha => h.mem_iff.mp ha, fun ha => h.mem_iff.mpr ha⟩

/-- Over a duplicate-free key list containing `x`, the indicator sum
collapses to the single value. -/
lemma sum_map_indicator (keys : List String) (x : String) (w : ℚ)
    (hnd : keys.Nodup) (hx : x ∈ keys) :
    (keys.map (fun c => if x = c then w else 0)).sum = w := by
  induction keys with
  | nil => cases hx
  | cons k t ih =>
    rcases List.mem_cons.mp hx with hk | hk
    · subst hk
      have hnot : x ∉ t := (List.nodup_cons.mp hnd).1
      have : (t.map (fun c => if x = c then w else 0)).sum = 0 := by
        apply List.sum_eq_zero
        intro y hy
        rcases List.mem_map.mp hy with ⟨c, hc, rfl⟩
        have : x ≠ c := fun h => hnot (h ▸ hc)
        simp [this]
      simp [this]
    · have hne : x ≠ k := by
        intro h
        exact (List.nodup_cons.mp hnd).1 (h ▸ hk)
      simp [hne, ih (List.nodup_cons.mp hnd).2 hk]

lemma classSubtotal_cons (i : CartItem) (t : List CartItem) (c : String) :
    classSubtotal (i :: t) c
      = (if taxClassOf i = c then i.price * i.quantity else 0) + classSubtotal t c := by
  simp only [classSubtotal, List.filter_cons, decide_eq_true_eq]
  split_ifs with h
  · simp [h]
  · simp [h]

/-- Grouping the items by tax class partitions the subtotal: summing the
per-class subtotals over any duplicate-free key list that covers every
item's class recovers the cart subtotal. -/
lemma sum_classSubtotal_of_covers (items : List CartItem) (keys : List String)
    (hnd : keys.Nodup) (hcov : ∀ i ∈ items, taxClassOf i ∈ keys) :
    (keys.map (classSubtotal items)).sum = subtotal items := by
  induction items with
  | nil =>
    have : ∀ x ∈ keys.map (classSubtotal []), x = 0 := by
      intro x hx
      rcases List.mem_map.mp hx with ⟨c, _, rfl⟩
      simp [classSubtotal]
    simp [subtotal, List.sum_eq_zero this]
  | cons i t ih =>
    have hmap : keys.map (classSubtotal (i :: t))
        = keys.map (fun c => (if taxClassOf i = c then i.price * i.quantity else 0)
            + classSubtotal t c) := by
      apply List.map_congr_left
      intro c _
      exact classSubtotal_cons i t c
    rw [hmap, List.sum_map_add, sum_map_indicator keys (taxClassOf i) _ hnd
      (hcov i (List.mem_cons_self i t)),
      ih (fun j hj => hcov j (List.mem_cons_of_mem i hj))]
    simp [subtotal]

lemma classSubtotal_perm {items₁ items₂ : List CartItem}
    (h : items₁.Perm items₂) (c : String) :
    classSubtotal items₁ c = classSubtotal items₂ c :=
  ((h.filter _).map _).sum_eq

lemma classesOf_perm {items₁ items₂ : List CartItem} (h : items₁.Perm items₂) :
    (classesOf items₁).Perm (classesOf items₂) :=
  firstDedup_perm (h.map taxClassOf)

/-- The running item-tax total of `calculateTaxes` as a double sum over
classes and applicable rates. -/
lemma calculateTaxes_tax_total (items : List CartItem) (sub ship : ℚ)
    (rates : List TaxRate) :
    (calculateTaxes items sub ship rates).tax_total
      = ((classesOf items).map (fun c =>
          ((applicableRates rates c).map
            (fun r => classSubtotal items c * toNum r.rate 0 / 100)).sum)).sum := by
  simp only [calculateTaxes, sum_map_flatMap, List.map_map]
  rfl

/-- The running shipping-tax total of `calculateTaxes` as a double sum. -/
lemma calculateTaxes_shipping_tax_total (items : List CartItem) (sub ship : ℚ)
    (rates : List TaxRate) :
    (calculateTaxes items sub ship rates).shipping_tax_total
      = ((classesOf items).map (fun c =>
          ((applicableRates rates c).map
            (fun r => if r.shipping then ship * toNum r.rate 0 / 100 else 0)).sum)).sum := by
  simp only [calculateTaxes, sum_map_flatMap, List.map_map]
  rfl

/-- The emitted tax lines, one per (class, applicable rate) pair. -/
lemma calculateTaxes_tax_lines (items : List CartItem) (sub ship : ℚ)
    (rates : List TaxRate) :
    (calculateTaxes items sub ship rates).tax_lines
      = (classesOf items).flatMap (fun c =>
          (applicableRates rates c).map (taxLineFor items ship c)) := rfl

end YouliteCart

namespace YouliteCart

/-- The per-item Boolean test of the selector agrees with the spec's
wording of COD support. -/
lemma itemSupportsCOD_iff (it : CartItem) :
    itemSupportsCOD it = true ↔ supportsCODSpec it := by
  cases h : it.payment_methods with
  | none => simp [itemSupportsCOD, supportsCODSpec, h]
  | some ms => simp [itemSupportsCOD, supportsCODSpec, h]

/-- `cartItems.every(...)` agrees with the spec's universally quantified
COD-support condition. -/
lemma allProductsSupportCOD_iff (items : List CartItem) :
    allProductsSupportCOD items = true ↔ ∀ it ∈ items, supportsCODSpec it := by
  simp [allProductsSupportCOD, List.all_eq_true, itemSupportsCOD_iff]

/-- `find?` over the enabled gateways succeeds exactly when an enabled
gateway with the given id exists. -/
lemma find?_enabled_isSome (gws : List PaymentGateway) (s : String) :
    ((gws.filter (fun gateway => gateway.enabled)).find?
        (fun gateway => gateway.id == s)).isSome = true
      ↔ ∃ g ∈ gws, g.enabled = true ∧ g.id = s := by
  rw [List.find?_isSome]
  constructor
  · rintro ⟨g, hg, hid⟩
    rcases List.mem_filter.mp hg with ⟨hmem, hen⟩
    exact ⟨g, hmem, hen, by simpa using hid⟩
  · rintro ⟨g, hg, hen, hid⟩
    exact ⟨g, List.mem_filter.mpr ⟨hg, hen⟩, by simp [hid]⟩

/-- What `find?` over the enabled gateways returns, when it succeeds. -/
lemma find?_enabled_eq_some (gws : List PaymentGateway) (s : String)
    (g : PaymentGateway)
    (h : (gws.filter (fun gateway => gateway.enabled)).find?
        (fun gateway => gateway.id == s) = some g) :
    g ∈ gws ∧ g.enabled = true ∧ g.id = s := by
  have hmem := List.mem_of_find?_eq_some h
  have hid := List.find?_some h
  rcases List.mem_filter.mp hmem with ⟨hmem2, hen⟩
  exact ⟨hmem2, hen, by simpa using hid⟩

end YouliteCart

namespace YouliteCart

/-- C1: For every cart state, the assembled grand total equals
subtotal − coupon_discount + shipping_total + total_tax, where the
subtotal is the sum over cart items of price × quantity, the shipping
total is the sum of the shipping-line totals of the (at most one)
selected shipping method, and the total tax is the tax calculator's
item tax plus its shipping tax (when rates are present). -/
theorem grand_total_assembly (items : List CartItem) (coupons : List AppliedCouponMeta)
    (selected : Option ShippingMethod) (rates : List TaxRate) :
    total items coupons (shippingLinesFor selected items)
        (updateTaxCalculation items (shippingLinesFor selected items) rates)
      = (items.map (fun it => it.price * it.quantity)).sum
        - calcCouponDiscount ((items.map (fun it => it.price * it.quantity)).sum) coupons
        + ((shippingLinesFor selected items).map (fun line => toNum line.total 0)).sum
        + totalTax (updateTaxCalculation items (shippingLinesFor selected items) rates)
    ∧ (0 < rates.length →
        totalTax (updateTaxCalculation items (shippingLinesFor selected items) rates)
          = (calculateTaxes items (subtotal items)
              (shippingTotalOf (shippingLinesFor selected items)) rates).tax_total
            + (calculateTaxes items (subtotal items)
              (shippingTotalOf (shippingLinesFor selected items)) rates).shipping_tax_total) := by
  constructor
  · simp [total, subtotal, shippingTotalOf]
  · intro h
    simp [updateTaxCalculation, h, totalTax, itemTaxTotal, shippingTaxTotal]

/-- Witness for the hypothesis of `grand_total_assembly`. -/
theorem grand_total_assembly_witness :
    0 < ([exRate] : List TaxRate).length
    ∧ totalTax (updateTaxCalculation [exItem] (shippingLinesFor none [exItem]) [exRate])
        = (calculateTaxes [exItem] (subtotal [exItem])
            (shippingTotalOf (shippingLinesFor none [exItem])) [exRate]).tax_total
          + (calculateTaxes [exItem] (subtotal [exItem])
            (shippingTotalOf (shippingLinesFor none [exItem])) [exRate]).shipping_tax_total :=
  ⟨by decide, (grand_total_assembly [exItem] [] none [exRate]).2 (by decide)⟩

/-- C5: The coupon discount is the sum, over the applied coupons, of the
subtotal percentage for `percent` coupons, exactly the amount (independent
of the subtotal) for `fixed_cart` coupons, and 0 for any other type. -/
theorem coupon_discount_spec (sub : ℚ) (coupons : List AppliedCouponMeta) :
    calcCouponDiscount sub coupons = (coupons.map (couponValueSpec sub)).sum
    ∧ (∀ c : AppliedCouponMeta, c.discount_type = "percent" →
        couponValueSpec sub c = sub * c.amount / 100)
    ∧ (∀ c : AppliedCouponMeta, c.discount_type = "fixed_cart" →
        couponValueSpec sub c = c.amount)
    ∧ (∀ c : AppliedCouponMeta, c.discount_type ≠ "percent" →
        c.discount_type ≠ "fixed_cart" → couponValueSpec sub c = 0)
    ∧ (∀ (sub2 : ℚ) (c : AppliedCouponMeta), c.discount_type = "fixed_cart" →
        calcCouponDiscount sub [c] = calcCouponDiscount sub2 [c]) := by
  refine ⟨?_, ?_, ?_, ?_, ?_⟩
  · simpa using calcCouponDiscount_foldl sub 0 coupons
  · intro c h; simp [couponValueSpec, h]
  · intro c h; simp [couponValueSpec, h]
  · intro c h1 h2; simp [couponValueSpec, h1, h2]
  · intro sub2 c h; simp [calcCouponDiscount, h]

/-- Witness for the hypotheses of `coupon_discount_spec`. -/
theorem coupon_discount_spec_witness :
    (({ code := "SAVE", amount := 30, discount_type := "fixed_cart" } :
        AppliedCouponMeta).discount_type = "fixed_cart")
    ∧ couponValueSpec 1000
        { code := "SAVE", amount := 30, discount_type := "fixed_cart" } = 30 :=
  ⟨rfl, (coupon_discount_spec 1000 []).2.2.1
    { code := "SAVE", amount := 30, discount_type := "fixed_cart" } rfl⟩

/-- C7: A failed remote fetch defaults its input to the empty list, and
the empty inputs degrade to zero tax (null tax calculation), zero
shipping, and no selected payment method. -/
theorem fetch_failure_defaults (e : String) (items : List CartItem)
    (lines : List ShippingLine) :
    loadTaxRates (Except.error e) = []
    ∧ loadShippingMethods (Except.error e) = []
    ∧ loadPaymentGateways (Except.error e) = []
    ∧ updateTaxCalculation items lines [] = none
    ∧ totalTax (updateTaxCalculation items lines []) = 0
    ∧ calculateShippingLines [] items = []
    ∧ shippingTotalOf [] = 0
    ∧ determinePaymentMethod items [] = none := by
  refine ⟨rfl, rfl, rfl, ?_, ?_, ?_, rfl, ?_⟩
  · simp [updateTaxCalculation]
  · simp [updateTaxCalculation, totalTax, itemTaxTotal, shippingTaxTotal]
  · simp [calculateShippingLines]
  · simp [determinePaymentMethod]

/-- C9: If every item's quantity is at least 1, the quantity-update
operation (which ignores requests below 1) and the removal operation
both leave every remaining quantity at least 1. -/
theorem quantity_invariant (items : List CartItem) (id : String) (qty : ℚ)
    (h : ∀ it ∈ items, 1 ≤ it.quantity) :
    (∀ it ∈ updateQuantity items id qty, 1 ≤ it.quantity)
    ∧ (∀ it ∈ removeItem items id, 1 ≤ it.quantity) := by
  constructor
  · intro it hit
    unfold updateQuantity at hit
    by_cases hq : qty < 1
    · rw [if_pos hq] at hit
      exact h it hit
    · rw [if_neg hq] at hit
      rcases List.mem_map.mp hit with ⟨j, hj, rfl⟩
      by_cases hid : j.id = id
      · simp only [if_pos hid]
        exact not_lt.mp hq
      · simp only [if_neg hid]
        exact h j hj
  · intro it hit
    exact h it (List.mem_of_mem_filter hit)

/-- Witness for the hypothesis of `quantity_invariant`. -/
theorem quantity_invariant_witness :
    (∀ it ∈ ([exItem] : List CartItem), 1 ≤ it.quantity)
    ∧ (∀ it ∈ updateQuantity [exItem] "1" 2, 1 ≤ it.quantity) := by
  have h : ∀ it ∈ ([exItem] : List CartItem), 1 ≤ it.quantity := by
    intro it hit
    rcases List.mem_singleton.mp hit with rfl
    norm_num [exItem]
  exact ⟨h, (quantity_invariant [exItem] "1" 2 h).1⟩

/-- C10: `toNum` is total — the parsed float when finite, the fallback
otherwise — so an unparseable tax-rate value contributes zero tax and an
unparseable fixed shipping-cost value yields zero shipping cost. -/
theorem toNum_total_and_defaults (x fb sub ship : ℚ) (items : List CartItem)
    (r : TaxRate) (m : ShippingMethod) :
    toNum (some x) fb = x
    ∧ toNum none fb = fb
    ∧ (r.rate = none →
        (calculateTaxes items sub ship [r]).tax_total = 0
        ∧ (calculateTaxes items sub ship [r]).shipping_tax_total = 0)
    ∧ (m.cost.hasQty = false → m.cost.hasCost = false → m.cost.literal = none →
        calculateShippingCost m items = 0) := by
  refine ⟨rfl, rfl, ?_, ?_⟩
  · intro hr
    constructor
    · rw [calculateTaxes_tax_total]
      apply List.sum_eq_zero
      intro y hy
      rcases List.mem_map.mp hy with ⟨c, hc, rfl⟩
      apply List.sum_eq_zero
      intro z hz
      rcases List.mem_map.mp hz with ⟨r2, hr2, rfl⟩
      have hmem : r2 = r := by
        have h2 := hr2
        simp only [applicableRates, List.mem_filter, List.mem_singleton] at h2
        exact h2.1
      rcases hmem with rfl
      rw [hr]
      simp [toNum]
    · rw [calculateTaxes_shipping_tax_total]
      apply List.sum_eq_zero
      intro y hy
      rcases List.mem_map.mp hy with ⟨c, hc, rfl⟩
      apply List.sum_eq_zero
      intro z hz
      rcases List.mem_map.mp hz with ⟨r2, hr2, rfl⟩
      have hmem : r2 = r := by
        have h2 := hr2
        simp only [applicableRates, List.mem_filter, List.mem_singleton] at h2
        exact h2.1
      rcases hmem with rfl
      rw [hr]
      simp [toNum]
  · intro h1 h2 h3
    simp [calculateShippingCost, h1, h2, h3, toNum]

/-- Witness for the hypotheses of `toNum_total_and_defaults`. -/
theorem toNum_total_witness :
    nanRate.rate = none
    ∧ (calculateTaxes [exItem] 1000 100 [nanRate]).tax_total = 0 :=
  ⟨rfl, ((toNum_total_and_defaults 0 0 1000 100 [exItem] nanRate
      negCostMethod).2.2.1 rfl).1⟩

end YouliteCart

namespace YouliteCart

/-- C2: The tax calculator partitions the cart items by tax class
(missing class defaults to standard), matches each class against the
rates whose class equals it (or, for standard, is empty), accumulates
class_subtotal × rate / 100 per matching pair into the tax total and
shipping_total × rate / 100 into the shipping-tax total only for
shipping-flagged rates, and emits exactly one tax line per pair; the
single 18% standard rate with subtotal 1000 and shipping 100 yields item
tax 180, shipping tax 18, total 198. -/
theorem calculateTaxes_spec (items : List CartItem) (sub ship : ℚ)
    (rates : List TaxRate) :
    ((classesOf items).Nodup
      ∧ (∀ i ∈ items, taxClassOf i ∈ classesOf items)
      ∧ (∀ i : CartItem, i.tax_class = none → taxClassOf i = "standard")
      ∧ ((classesOf items).map (classSubtotal items)).sum = subtotal items)
    ∧ (∀ (c : String) (r : TaxRate), r ∈ applicableRates rates c ↔
        (r ∈ rates ∧ (r.«class» = c ∨ (c = "standard" ∧ r.«class» = ""))))
    ∧ (calculateTaxes items sub ship rates).tax_total
        = ((classesOf items).map (fun c =>
            ((applicableRates rates c).map
              (fun r => classSubtotal items c * toNum r.rate 0 / 100)).sum)).sum
    ∧ (calculateTaxes items sub ship rates).shipping_tax_total
        = ((classesOf items).map (fun c =>
            ((applicableRates rates c).map
              (fun r => if r.shipping then ship * toNum r.rate 0 / 100 else 0)).sum)).sum
    ∧ (calculateTaxes items sub ship rates).tax_lines.length
        = ((classesOf items).map (fun c => (applicableRates rates c).length)).sum
    ∧ ((calculateTaxes [exItem] 1000 100 [exRate]).tax_total = 180
        ∧ (calculateTaxes [exItem] 1000 100 [exRate]).shipping_tax_total = 18
        ∧ (calculateTaxes [exItem] 1000 100 [exRate]).tax_total
            + (calculateTaxes [exItem] 1000 100 [exRate]).shipping_tax_total = 198) := by
  refine ⟨⟨nodup_firstDedup _, ?_, ?_, ?_⟩, ?_,
    calculateTaxes_tax_total items sub ship rates,
    calculateTaxes_shipping_tax_total items sub ship rates, ?_, ?_⟩
  · intro i hi
    exact (mem_firstDedup _ _).mpr (List.mem_map_of_mem taxClassOf hi)
  · intro i hi
    simp [taxClassOf, hi]
  · exact sum_classSubtotal_of_covers items _ (nodup_firstDedup _)
      (fun i hi => (mem_firstDedup _ _).mpr (List.mem_map_of_mem taxClassOf hi))
  · intro c r
    simp [applicableRates, List.mem_filter]
  · simp [calculateTaxes, List.length_flatMap, Function.comp_def]
  · norm_num [calculateTaxes, classesOf, firstDedup, firstDedupAux, taxClassOf,
      classSubtotal, applicableRates, taxLineFor, toNum, exItem, exRate]

/-- Witness for the hypotheses of `calculateTaxes_spec`. -/
theorem calculateTaxes_spec_witness :
    exItem ∈ ([exItem] : List CartItem)
    ∧ taxClassOf exItem ∈ classesOf [exItem] :=
  ⟨List.mem_singleton.mpr rfl,
    (calculateTaxes_spec [exItem] 1000 100 [exRate]).1.2.1 exItem
      (List.mem_singleton.mpr rfl)⟩

/-- C3: The payment selector, in priority order: (a) if every item
supports COD (or has no restriction) and an enabled COD gateway exists,
it selects that gateway with method `cod`; (b) otherwise, if an enabled
razorpay (online) gateway exists, it selects it; (c) otherwise, if an
enabled COD gateway exists, it selects it as fallback; (d) otherwise it
selects nothing. -/
theorem payment_selector_spec (items : List CartItem) (gws : List PaymentGateway) :
    ((∀ it ∈ items, supportsCODSpec it) →
      (∃ g ∈ gws, g.enabled = true ∧ g.id = "cod") →
      ∃ g s, g.enabled = true ∧ g.id = "cod"
        ∧ determinePaymentMethod items gws = some s
        ∧ s.method = "cod" ∧ s.gateway = g)
    ∧ ((¬ (∀ it ∈ items, supportsCODSpec it)
        ∨ ¬ ∃ g ∈ gws, g.enabled = true ∧ g.id = "cod") →
       (∃ g ∈ gws, g.enabled = true ∧ g.id = "razorpay") →
      ∃ g s, g.enabled = true ∧ g.id = "razorpay"
        ∧ determinePaymentMethod items gws = some s
        ∧ s.method = "razorpay" ∧ s.gateway = g)
    ∧ ((¬ ∃ g ∈ gws, g.enabled = true ∧ g.id = "razorpay") →
       (∃ g ∈ gws, g.enabled = true ∧ g.id = "cod") →
      ∃ g s, g.enabled = true ∧ g.id = "cod"
        ∧ determinePaymentMethod items gws = some s
        ∧ s.method = "cod" ∧ s.gateway = g)
    ∧ ((¬ ∃ g ∈ gws, g.enabled = true ∧ g.id = "cod") →
       (¬ ∃ g ∈ gws, g.enabled = true ∧ g.id = "razorpay") →
      determinePaymentMethod items gws = none) := by
  have hcodiff := find?_enabled_isSome gws "cod"
  have hrziff := find?_enabled_isSome gws "razorpay"
  refine ⟨?_, ?_, ?_, ?_⟩
  · intro hall hcod
    have hallb : allProductsSupportCOD items = true :=
      (allProductsSupportCOD_iff items).mpr hall
    have hsome : ((gws.filter fun gateway => gateway.enabled).find?
        fun gateway => gateway.id == "cod").isSome = true := hcodiff.mpr hcod
    obtain ⟨g0, hg0⟩ := Option.isSome_iff_exists.mp hsome
    obtain ⟨hg0mem, hg0en, hg0id⟩ := find?_enabled_eq_some gws "cod" g0 hg0
    refine ⟨g0, ?_⟩
    refine ⟨{ method := "cod", gateway := g0,
              description := "Cash on delivery - Pay with cash upon delivery." }, ?_⟩
    refine ⟨hg0en, hg0id, ?_, rfl, rfl⟩
    simp [determinePaymentMethod, hallb, hg0]
  · intro hnot hrz
    have hrzsome := hrziff.mpr hrz
    obtain ⟨g1, hg1⟩ := Option.isSome_iff_exists.mp hrzsome
    obtain ⟨hg1mem, hg1en, hg1id⟩ := find?_enabled_eq_some gws "razorpay" g1 hg1
    have hcondfalse : (allProductsSupportCOD items &&
        ((gws.filter fun gateway => gateway.enabled).find?
          fun gateway => gateway.id == "cod").isSome) = false := by
      rcases hnot with hno | hno
      · have hfalse : allProductsSupportCOD items = false := by
          cases hab : allProductsSupportCOD items
          · rfl
          · exact absurd ((allProductsSupportCOD_iff items).mp hab) hno
        simp [hfalse]
      · have hnone : ((gws.filter fun gateway => gateway.enabled).find?
            fun gateway => gateway.id == "cod") = none := by
          rw [← Option.not_isSome_iff_eq_none]
          intro hs
          exact hno (hcodiff.mp hs)
        simp [hnone]
    refine ⟨g1, ?_⟩
    refine ⟨{ method := "razorpay", gateway := g1,
              description := "Credit Card/Debit Card/NetBanking - Secure online payment" }, ?_⟩
    refine ⟨hg1en, hg1id, ?_, rfl, rfl⟩
    simp only [determinePaymentMethod, hcondfalse, hg1]
    simp
  · intro hnorz hcod
    have hsome := hcodiff.mpr hcod
    obtain ⟨g0, hg0⟩ := Option.isSome_iff_exists.mp hsome
    obtain ⟨hg0mem, hg0en, hg0id⟩ := find?_enabled_eq_some gws "cod" g0 hg0
    have hrznone : ((gws.filter fun gateway => gateway.enabled).find?
        fun gateway => gateway.id == "razorpay") = none := by
      rw [← Option.not_isSome_iff_eq_none]
      intro hs
      exact hnorz (hrziff.mp hs)
    refine ⟨g0, ?_⟩
    refine ⟨{ method := "cod", gateway := g0,
              description := "Cash on delivery - Pay with cash upon delivery." }, ?_⟩
    refine ⟨hg0en, hg0id, ?_, rfl, rfl⟩
    cases hallb : allProductsSupportCOD items
    · simp [determinePaymentMethod, hallb, hg0, hrznone]
    · simp [determinePaymentMethod, hallb, hg0, hrznone]
  · intro hnocod hnorz
    have hcodnone : ((gws.filter fun gateway => gateway.enabled).find?
        fun gateway => gateway.id == "cod") = none := by
      rw [← Option.not_isSome_iff_eq_none]
      intro hs
      exact hnocod (hcodiff.mp hs)
    have hrznone : ((gws.filter fun gateway => gateway.enabled).find?
        fun gateway => gateway.id == "razorpay") = none := by
      rw [← Option.not_isSome_iff_eq_none]
      intro hs
      exact hnorz (hrziff.mp hs)
    cases hallb : allProductsSupportCOD items <;>
      simp [determinePaymentMethod, hallb, hcodnone, hrznone]

/-- Witness for the hypotheses of `payment_selector_spec`. -/
theorem payment_selector_witness :
    (∀ it ∈ ([exItem2] : List CartItem), supportsCODSpec it)
    ∧ (∃ g ∈ ([codGw] : List PaymentGateway), g.enabled = true ∧ g.id = "cod")
    ∧ ∃ g s, g.enabled = true ∧ g.id = "cod"
        ∧ determinePaymentMethod [exItem2] [codGw] = some s
        ∧ s.method = "cod" ∧ s.gateway = g := by
  have h1 : ∀ it ∈ ([exItem2] : List CartItem), supportsCODSpec it := by
    intro it hit
    rcases List.mem_singleton.mp hit with rfl
    exact Or.inr ⟨["cod"], rfl, Or.inl (List.mem_singleton.mpr rfl)⟩
  have h2 : ∃ g ∈ ([codGw] : List PaymentGateway), g.enabled = true ∧ g.id = "cod" :=
    ⟨codGw, List.mem_singleton.mpr rfl, rfl, rfl⟩
  exact ⟨h1, h2, (payment_selector_spec [exItem2] [codGw]).1 h1 h2⟩

/-- C4 counterexample: with a single tax line of 0.006 (item 0.6 at 1%),
the returned total (0.01, rounded from the unrounded accumulator sum)
differs from the sum of the returned buckets (0 + 0 + 0). -/
theorem gst_total_ne_bucket_sum :
    (calculateGSTBreakdown (some (calculateTaxes [centItem] (3/5) 0 [centRate]))).total
      ≠ (calculateGSTBreakdown (some (calculateTaxes [centItem] (3/5) 0 [centRate]))).cgst
        + (calculateGSTBreakdown (some (calculateTaxes [centItem] (3/5) 0 [centRate]))).sgst
        + (calculateGSTBreakdown (some (calculateTaxes [centItem] (3/5) 0 [centRate]))).igst := by
  norm_num [calculateGSTBreakdown, calculateTaxes, classesOf, firstDedup, firstDedupAux,
    taxClassOf, classSubtotal, applicableRates, taxLineFor, toNum, centItem, centRate,
    round2]

/-- C4 (amended): the breakdown splits every line's item tax and shipping
tax 50/50 into the CGST and SGST accumulators, returns both accumulators
rounded to 2 decimals, an IGST of exactly 0, and a total equal to the
*unrounded* accumulator sum rounded to 2 decimals (not, in general, the
sum of the rounded buckets); on the 18% example it returns
cgst = 99, sgst = 99, igst = 0, total = 198. -/
theorem gst_breakdown_spec (t : TaxCalculation) :
    (calculateGSTBreakdown (some t)).cgst
        = round2 ((t.tax_lines.map
            (fun l => l.tax_total / 2 + l.shipping_tax_total / 2)).sum)
    ∧ (calculateGSTBreakdown (some t)).sgst = (calculateGSTBreakdown (some t)).cgst
    ∧ (calculateGSTBreakdown (some t)).igst = 0
    ∧ (calculateGSTBreakdown (some t)).total
        = round2 ((t.tax_lines.map
              (fun l => l.tax_total / 2 + l.shipping_tax_total / 2)).sum
            + (t.tax_lines.map
              (fun l => l.tax_total / 2 + l.shipping_tax_total / 2)).sum + 0)
    ∧ ((calculateGSTBreakdown (some (calculateTaxes [exItem] 1000 100 [exRate]))).cgst = 99
        ∧ (calculateGSTBreakdown (some (calculateTaxes [exItem] 1000 100 [exRate]))).sgst = 99
        ∧ (calculateGSTBreakdown (some (calculateTaxes [exItem] 1000 100 [exRate]))).igst = 0
        ∧ (calculateGSTBreakdown (some (calculateTaxes [exItem] 1000 100 [exRate]))).total
            = 198) := by
  refine ⟨rfl, rfl, ?_, rfl, ?_⟩
  · norm_num [calculateGSTBreakdown, round2]
  · norm_num [calculateGSTBreakdown, calculateTaxes, classesOf, firstDedup, firstDedupAux,
      taxClassOf, classSubtotal, applicableRates, taxLineFor, toNum, exItem, exRate,
      round2]

/-- C6 counterexample: a fixed cost value of `-5` (no formula token)
makes the evaluator return a negative amount. -/
theorem shipping_cost_negative :
    calculateShippingCost negCostMethod [] < 0 := by
  norm_num [calculateShippingCost, negCostMethod, toNum]

/-- C6 (amended): the evaluator returns a non-negative amount whenever
the formula evaluations it may use only produce non-negative values and
the literal parse of the raw cost value is non-negative; with a negative
cost value the result is negative (no clamping is performed). -/
theorem shipping_cost_nonneg (m : ShippingMethod) (items : List CartItem)
    (hq : ∀ q v, m.cost.evalQty q = some v → 0 ≤ v)
    (hc : ∀ q v, m.cost.evalCost q = some v → 0 ≤ v)
    (hl : 0 ≤ toNum m.cost.literal 0) :
    0 ≤ calculateShippingCost m items := by
  simp only [calculateShippingCost]
  by_cases h1 : m.cost.hasQty = true
  · rw [if_pos h1]
    cases hev : m.cost.evalQty ((items.map (fun item => item.quantity)).sum) with
    | none => exact hl
    | some v => exact hq _ v hev
  · rw [if_neg h1]
    by_cases h2 : m.cost.hasCost = true
    · rw [if_pos h2]
      cases hev : m.cost.evalCost ((items.map (fun item => item.price * item.quantity)).sum) with
      | none => exact hl
      | some v => exact hc _ v hev
    · rw [if_neg h2]
      exact hl

/-- Witness for the hypotheses of `shipping_cost_nonneg`. -/
theorem shipping_cost_nonneg_witness :
    0 ≤ calculateShippingCost qtyCostMethod [] :=
  shipping_cost_nonneg qtyCostMethod []
    (fun q v h => by
      simp [qtyCostMethod] at h
      rw [← h]
      norm_num)
    (fun q v h => by
      simp [qtyCostMethod] at h)
    (by norm_num [qtyCostMethod, toNum])

/-- C8: The subtotal, the tax calculator's tax total and its shipping-tax
total are invariant under any permutation of the cart item list. -/
theorem reorder_invariance (items1 items2 : List CartItem) (sub ship : ℚ)
    (rates : List TaxRate) (h : items1.Perm items2) :
    subtotal items1 = subtotal items2
    ∧ (calculateTaxes items1 sub ship rates).tax_total
        = (calculateTaxes items2 sub ship rates).tax_total
    ∧ (calculateTaxes items1 sub ship rates).shipping_tax_total
        = (calculateTaxes items2 sub ship rates).shipping_tax_total := by
  refine ⟨?_, ?_, ?_⟩
  · simp only [subtotal]
    exact (h.map (fun it => it.price * it.quantity)).sum_eq
  · rw [calculateTaxes_tax_total, calculateTaxes_tax_total]
    have hfun : (fun c => ((applicableRates rates c).map
        (fun r => classSubtotal items1 c * toNum r.rate 0 / 100)).sum)
        = (fun c => ((applicableRates rates c).map
        (fun r => classSubtotal items2 c * toNum r.rate 0 / 100)).sum) := by
      funext c
      rw [classSubtotal_perm h c]
    rw [hfun]
    exact ((classesOf_perm h).map _).sum_eq
  · rw [calculateTaxes_shipping_tax_total, calculateTaxes_shipping_tax_total]
    exact ((classesOf_perm h).map _).sum_eq

/-- Witness for the hypothesis of `reorder_invariance`. -/
theorem reorder_invariance_witness :
    ([exItem, exItem2] : List CartItem).Perm [exItem2, exItem]
    ∧ subtotal [exItem, exItem2] = subtotal [exItem2, exItem] :=
  ⟨List.Perm.swap exItem2 exItem [],
    (reorder_invariance [exItem, exItem2] [exItem2, exItem] 0 0 []
      (List.Perm.swap exItem2 exItem [])).1⟩

end YouliteCart
